import Mathlib

/-
Shallow embedding of the PocketLibs casting library (src/casting.h and
src/casting.hxx): LLVM-style `isa` / `cast` / `dyn_cast` over five
ownership shapes (direct value or reference, raw pointer, unique_ptr,
shared_ptr, optional).

Modelling conventions:
- An object in storage is an `Obj`: an address (its identity) and a
  dynamic discriminant `kind` (the example hierarchy's `ShapeKind` tag,
  read by `classof`).
- The compile-time facts templates dispatch on are packaged in a
  `CastSys`: `baseOf To Fr` models `std::is_base_of_v<To, Fr>`,
  `classofCallable To Fr` models the SFINAE trait `classof_callable`
  (casting.h) and the concept `ClassofCallable` (casting.hxx) - both ask
  whether `To::classof(const Fr*)` is well-formed and bool-convertible -
  and `classof To k` models `To::classof` applied to a pointed-to object
  whose discriminant is `k`.
- A typed result (`To&`, `To*`, `unique_ptr<To>`, ...) is a `TObj`:
  the target static type together with the object it designates.
- Null pointers, empty unique/shared handles and empty optionals are
  `none`; debug-build `assert` failures are `Except.error` carrying the
  assertion that fired, so `.ok` is exactly "returns normally, no
  assertion fires".
- `const` and non-`const` overloads collapse (mutability is not part of
  the observable behaviour modelled here).
- Functions taking `unique_ptr<Fr>&&` consume their source, so they
  return the final state of the source handle alongside the result;
  `shared_ptr` operations additionally thread the owner count of the
  pointed-to object's control block (`std::static_pointer_cast` copies
  the handle, adding one owner).
- The optional-shape casts build their result by copy construction
  (`return cast<To>(*pVal)` / `std::optional<To>(cast<To>(*pVal))`); the
  address the freshly constructed return value lives at is a caller-side
  fact, passed in as `newAddr`.
-/

/-- An object in storage: its address (identity) and its dynamic
discriminant, read by classification predicates. -/
structure Obj (K : Type) where
  addr : Nat
  kind : K
deriving DecidableEq

/-- The compile-time data the casting templates dispatch on:
declared-derivation (`std::is_base_of_v`), availability of a
`classof` predicate for a given argument type, and the predicate
itself (a function of the pointed-to object's discriminant). -/
structure CastSys (Ty K : Type) where
  baseOf : Ty → Ty → Bool
  classofCallable : Ty → Ty → Bool
  classof : Ty → K → Bool

/-- A result retyped at a target static type: `To&` / `To*` /
`unique_ptr<To>` / ... designating an object. -/
structure TObj (Ty K : Type) where
  sty : Ty
  obj : Obj K
deriving DecidableEq

/-- The debug-build assertions appearing in the source. -/
inductive AssertViolation : Type
  /-- `assert(pVal && "isa<>/cast<> used on null pointer")` -/
  | nullPointer
  /-- `assert(pVal.has_value() && "isa<>/cast<> used on empty optional")` -/
  | emptyOptional
  /-- `assert(isa<To>(pVal) && "cast<> argument of incompatible type!")` -/
  | incompatibleType
deriving DecidableEq

/-- A small encoding of the C++ return-type shapes appearing in the two
headers' signatures, for comparing declared return types across the two
variants and against the types of returned expressions. -/
inductive CxxTy (Ty : Type) : Type
  /-- `To` returned by value -/
  | value (t : Ty)
  /-- `To&` / `const To&` -/
  | ref (t : Ty)
  /-- `U*` (nested, so `std::unique_ptr<To>*` is expressible) -/
  | ptr (u : CxxTy Ty)
  /-- `std::unique_ptr<To>` -/
  | uniquePtr (t : Ty)
  /-- `std::shared_ptr<To>` -/
  | sharedPtr (t : Ty)
  /-- `std::optional<To>` -/
  | optionalOf (t : Ty)
deriving DecidableEq

/-- Heap update at one address: the model of mutating the object stored
at `a` (used to state that aliasing handles observe each other's
writes). -/
def writeKind {K : Type} (heap : Nat → K) (a : Nat) (k : K) : Nat → K :=
  fun x => if x = a then k else heap x

/-- Heap read at one address. -/
def readKind {K : Type} (heap : Nat → K) (a : Nat) : K :=
  heap a

namespace CastingH

/- Embedding of src/casting.h (the pre-concepts variant). -/

variable {Ty K : Type}

/-- casting.h, `detail::isa_impl` (lines 50-59): structural base gives an
unconditional match; otherwise consult `To::classof` when the SFINAE
trait `classof_callable<To, From>` holds; otherwise no match. -/
def isa_impl (S : CastSys Ty K) (To Fr : Ty) (o : Obj K) : Bool :=
  if S.baseOf To Fr then
    true
  else if S.classofCallable To Fr then
    S.classof To o.kind
  else
    false

/-- The variadic fold `(detail::isa_impl<To>(pVal) || ...)` shared by all
`isa` overloads. -/
def isaFold (S : CastSys Ty K) (Tos : List Ty) (Fr : Ty) (o : Obj K) : Bool :=
  Tos.any (fun To => isa_impl S To Fr o)

/-- casting.h, `isa` on a value/reference (lines 72-76). -/
def isaRef (S : CastSys Ty K) (Tos : List Ty) (Fr : Ty) (o : Obj K) : Bool :=
  isaFold S Tos Fr o

/-- casting.h, `isa` on a raw pointer (lines 87-106; const and non-const
overloads collapse): asserts the pointer is non-null, then tests the
pointee. -/
def isaPtr (S : CastSys Ty K) (Tos : List Ty) (Fr : Ty) (p : Option (Obj K)) :
    Except AssertViolation Bool :=
  match p with
  | none => .error .nullPointer
  | some o => .ok (isaFold S Tos Fr o)

/-- casting.h, `isa` on a `unique_ptr` (lines 117-121). -/
def isaUnique (S : CastSys Ty K) (Tos : List Ty) (Fr : Ty) (p : Option (Obj K)) :
    Except AssertViolation Bool :=
  match p with
  | none => .error .nullPointer
  | some o => .ok (isaFold S Tos Fr o)

/-- casting.h, `isa` on a `shared_ptr` (lines 132-136). -/
def isaShared (S : CastSys Ty K) (Tos : List Ty) (Fr : Ty) (p : Option (Obj K)) :
    Except AssertViolation Bool :=
  match p with
  | none => .error .nullPointer
  | some o => .ok (isaFold S Tos Fr o)

/-- casting.h, `isa` on an `optional` (lines 147-151): asserts
`has_value()`, then tests the stored value. -/
def isaOpt (S : CastSys Ty K) (Tos : List Ty) (Fr : Ty) (p : Option (Obj K)) :
    Except AssertViolation Bool :=
  match p with
  | none => .error .emptyOptional
  | some o => .ok (isaFold S Tos Fr o)

/-- casting.h, `cast` on a value/reference (lines 162-182): asserts
`isa<To>(pVal)`, then `static_cast<To&>(pVal)` - the same storage
retyped. -/
def castRef (S : CastSys Ty K) (To Fr : Ty) (o : Obj K) :
    Except AssertViolation (TObj Ty K) :=
  if isaRef S [To] Fr o then .ok ⟨To, o⟩ else .error .incompatibleType

/-- casting.h, `cast` on a raw pointer (lines 193-212): asserts
`isa<To>(pVal)` (whose own assertion fires first on a null pointer),
then `static_cast<To*>(pVal)` - the same address retyped. -/
def castPtr (S : CastSys Ty K) (To Fr : Ty) (p : Option (Obj K)) :
    Except AssertViolation (TObj Ty K) :=
  match p with
  | none => .error .nullPointer
  | some o =>
    if isaFold S [To] Fr o then .ok ⟨To, o⟩ else .error .incompatibleType

/-- casting.h, `cast` on a `unique_ptr` (lines 223-229): asserts
non-null and `isa<To>`, then `pVal.release()` - the source handle is
emptied and the returned handle owns the same object, retyped. Returns
(result, final state of the source handle). -/
def castUnique (S : CastSys Ty K) (To Fr : Ty) (src : Option (Obj K)) :
    Except AssertViolation (TObj Ty K × Option (Obj K)) :=
  match src with
  | none => .error .nullPointer
  | some o =>
    if isaFold S [To] Fr o then .ok (⟨To, o⟩, none) else .error .incompatibleType

/-- casting.h, `cast` on a `shared_ptr` (lines 240-245): asserts non-null
and `isa<To>`, then `std::static_pointer_cast<To>` - a new handle
aliasing the same object, adding one owner. Returns (result, source
handle after the call, owner count after the call); the source is taken
by `const&` and left unchanged. -/
def castShared (S : CastSys Ty K) (To Fr : Ty) (src : Option (Obj K)) (count : Nat) :
    Except AssertViolation (TObj Ty K × Option (Obj K) × Nat) :=
  match src with
  | none => .error .nullPointer
  | some o =>
    if isaFold S [To] Fr o then .ok (⟨To, o⟩, some o, count + 1)
    else .error .incompatibleType

/-- casting.h, `cast` on an `optional` (lines 256-261): asserts
`has_value()` and `isa<To>(pVal)`, then `return cast<To>(*pVal);` - the
`const To&` produced by the inner cast is copied into the by-value
return slot at `newAddr`. -/
def castOpt (S : CastSys Ty K) (To Fr : Ty) (src : Option (Obj K)) (newAddr : Nat) :
    Except AssertViolation (TObj Ty K) :=
  match src with
  | none => .error .emptyOptional
  | some o =>
    if isaFold S [To] Fr o then .ok ⟨To, ⟨newAddr, o.kind⟩⟩
    else .error .incompatibleType

/-- casting.h, `dyn_cast` on a value/reference (lines 272-291):
`isa<To>(pVal) ? &cast<To>(pVal) : nullptr`. -/
def dynCastRef (S : CastSys Ty K) (To Fr : Ty) (o : Obj K) :
    Except AssertViolation (Option (TObj Ty K)) :=
  if isaRef S [To] Fr o then (castRef S To Fr o).map some else .ok none

/-- casting.h, `dyn_cast` on a raw pointer (lines 302-319):
`(pVal && isa<To>(pVal)) ? cast<To>(pVal) : nullptr`; the `&&`
short-circuits, so a null pointer never reaches `isa` and its
assertion. -/
def dynCastPtr (S : CastSys Ty K) (To Fr : Ty) (p : Option (Obj K)) :
    Except AssertViolation (Option (TObj Ty K)) :=
  match p with
  | none => .ok none
  | some o =>
    match isaPtr S [To] Fr (some o) with
    | .error e => .error e
    | .ok b => if b then (castPtr S To Fr (some o)).map some else .ok none

/-
casting.h, `dyn_cast` on a `unique_ptr` (lines 330-336), is declared to
return `std::unique_ptr<To>*` while its success branch returns the
`std::unique_ptr<To>` produced by `cast<To>(std::move(pVal))`; the
overload is ill-formed when instantiated, so it has no runtime
embedding here - its declared and branch types are recorded below as
`CxxTy` values instead.
-/

/-- casting.h, `dyn_cast` on a `shared_ptr` (lines 347-353): null or
mismatch yields an empty handle with the source and the owner count
untouched; a match returns `cast<To>(pVal)`. Returns (result, source
after the call, owner count after the call). -/
def dynCastShared (S : CastSys Ty K) (To Fr : Ty) (src : Option (Obj K)) (count : Nat) :
    Except AssertViolation (Option (TObj Ty K) × Option (Obj K) × Nat) :=
  match src with
  | none => .ok (none, none, count)
  | some o =>
    match isaShared S [To] Fr (some o) with
    | .error e => .error e
    | .ok b =>
      if b then
        (castShared S To Fr (some o) count).map (fun r => (some r.1, r.2.1, r.2.2))
      else
        .ok (none, some o, count)

/-- casting.h, `dyn_cast` on an `optional` (lines 364-370): empty input
or mismatch yields `std::nullopt`; otherwise `return cast<To>(pVal);`,
implicitly wrapped into `std::optional<To>`. -/
def dynCastOpt (S : CastSys Ty K) (To Fr : Ty) (src : Option (Obj K)) (newAddr : Nat) :
    Except AssertViolation (Option (TObj Ty K)) :=
  match src with
  | none => .ok none
  | some o =>
    match isaOpt S [To] Fr (some o) with
    | .error e => .error e
    | .ok b => if b then (castOpt S To Fr (some o) newAddr).map some else .ok none

/-- Declared return type of casting.h `cast` on an `optional`
(line 257): `To`, by value. -/
def castOptRetTy (To : Ty) : CxxTy Ty :=
  .value To

/-- Declared return type of casting.h `cast` on a `unique_ptr`
(line 224): `std::unique_ptr<To>`. -/
def castUniqueRetTy (To : Ty) : CxxTy Ty :=
  .uniquePtr To

/-- Declared return type of casting.h `dyn_cast` on a `unique_ptr`
(line 331): `std::unique_ptr<To> *`. -/
def dynCastUniqueRetTy (To : Ty) : CxxTy Ty :=
  .ptr (.uniquePtr To)

/-- Type of the expression returned by the success branch of casting.h
`dyn_cast` on a `unique_ptr` (line 335, `cast<To>(std::move(pVal))`):
the return type of `cast` on a `unique_ptr`. -/
def dynCastUniqueSuccessTy (To : Ty) : CxxTy Ty :=
  castUniqueRetTy To

end CastingH

namespace CastingHxx

/- Embedding of src/casting.hxx (the concept-based variant). -/

variable {Ty K : Type}

/-- casting.hxx, `detail::isa_impl` (lines 46-55): identical logic to
casting.h, with the concept `ClassofCallable<To, From>` in place of the
SFINAE trait (both ask whether `To::classof(const From*)` is
well-formed and bool-convertible). -/
def isa_impl (S : CastSys Ty K) (To Fr : Ty) (o : Obj K) : Bool :=
  if S.baseOf To Fr then
    true
  else if S.classofCallable To Fr then
    S.classof To o.kind
  else
    false

/-- The variadic fold `(detail::isa_impl<To>(pVal) || ...)` shared by all
casting.hxx `isa` overloads. -/
def isaFold (S : CastSys Ty K) (Tos : List Ty) (Fr : Ty) (o : Obj K) : Bool :=
  Tos.any (fun To => isa_impl S To Fr o)

/-- casting.hxx, `isa` on a value/reference (lines 89-94). -/
def isaRef (S : CastSys Ty K) (Tos : List Ty) (Fr : Ty) (o : Obj K) : Bool :=
  isaFold S Tos Fr o

/-- casting.hxx, `isa` on a raw pointer (lines 105-124). -/
def isaPtr (S : CastSys Ty K) (Tos : List Ty) (Fr : Ty) (p : Option (Obj K)) :
    Except AssertViolation Bool :=
  match p with
  | none => .error .nullPointer
  | some o => .ok (isaFold S Tos Fr o)

/-- casting.hxx, `isa` on a `unique_ptr` (lines 135-139). -/
def isaUnique (S : CastSys Ty K) (Tos : List Ty) (Fr : Ty) (p : Option (Obj K)) :
    Except AssertViolation Bool :=
  match p with
  | none => .error .nullPointer
  | some o => .ok (isaFold S Tos Fr o)

/-- casting.hxx, `isa` on a `shared_ptr` (lines 150-154). -/
def isaShared (S : CastSys Ty K) (Tos : List Ty) (Fr : Ty) (p : Option (Obj K)) :
    Except AssertViolation Bool :=
  match p with
  | none => .error .nullPointer
  | some o => .ok (isaFold S Tos Fr o)

/-- casting.hxx, `isa` on an `optional` (lines 165-169). -/
def isaOpt (S : CastSys Ty K) (Tos : List Ty) (Fr : Ty) (p : Option (Obj K)) :
    Except AssertViolation Bool :=
  match p with
  | none => .error .emptyOptional
  | some o => .ok (isaFold S Tos Fr o)

/-- casting.hxx, `cast` on a value/reference (lines 180-203). -/
def castRef (S : CastSys Ty K) (To Fr : Ty) (o : Obj K) :
    Except AssertViolation (TObj Ty K) :=
  if isaRef S [To] Fr o then .ok ⟨To, o⟩ else .error .incompatibleType

/-- casting.hxx, `cast` on a raw pointer (lines 214-233). -/
def castPtr (S : CastSys Ty K) (To Fr : Ty) (p : Option (Obj K)) :
    Except AssertViolation (TObj Ty K) :=
  match p with
  | none => .error .nullPointer
  | some o =>
    if isaFold S [To] Fr o then .ok ⟨To, o⟩ else .error .incompatibleType

/-- casting.hxx, `cast` on a `unique_ptr` (lines 244-250): identical to
casting.h. Returns (result, final state of the source handle). -/
def castUnique (S : CastSys Ty K) (To Fr : Ty) (src : Option (Obj K)) :
    Except AssertViolation (TObj Ty K × Option (Obj K)) :=
  match src with
  | none => .error .nullPointer
  | some o =>
    if isaFold S [To] Fr o then .ok (⟨To, o⟩, none) else .error .incompatibleType

/-- casting.hxx, `cast` on a `shared_ptr` (lines 261-266): identical to
casting.h. -/
def castShared (S : CastSys Ty K) (To Fr : Ty) (src : Option (Obj K)) (count : Nat) :
    Except AssertViolation (TObj Ty K × Option (Obj K) × Nat) :=
  match src with
  | none => .error .nullPointer
  | some o =>
    if isaFold S [To] Fr o then .ok (⟨To, o⟩, some o, count + 1)
    else .error .incompatibleType

/-- casting.hxx, `cast` on an `optional` (lines 277-282): unlike
casting.h, returns `std::optional<To>`; an empty input is returned as
`std::nullopt` before any assertion runs, and on a match the stored
value is copied into a freshly constructed `To` at `newAddr`. -/
def castOpt (S : CastSys Ty K) (To Fr : Ty) (src : Option (Obj K)) (newAddr : Nat) :
    Except AssertViolation (Option (TObj Ty K)) :=
  match src with
  | none => .ok none
  | some o =>
    if isaFold S [To] Fr o then .ok (some ⟨To, ⟨newAddr, o.kind⟩⟩)
    else .error .incompatibleType

/-- casting.hxx, `dyn_cast` on a value/reference (lines 293-314):
`isa<To>(pVal) ? cast<To>(&pVal) : nullptr` - the pointer-shape cast
applied to the value's address. -/
def dynCastRef (S : CastSys Ty K) (To Fr : Ty) (o : Obj K) :
    Except AssertViolation (Option (TObj Ty K)) :=
  if isaRef S [To] Fr o then (castPtr S To Fr (some o)).map some else .ok none

/-- casting.hxx, `dyn_cast` on a raw pointer (lines 325-342): identical
to casting.h. -/
def dynCastPtr (S : CastSys Ty K) (To Fr : Ty) (p : Option (Obj K)) :
    Except AssertViolation (Option (TObj Ty K)) :=
  match p with
  | none => .ok none
  | some o =>
    match isaPtr S [To] Fr (some o) with
    | .error e => .error e
    | .ok b => if b then (castPtr S To Fr (some o)).map some else .ok none

/-- casting.hxx, `dyn_cast` on a `unique_ptr` (lines 353-359): a null or
non-matching source is left untouched and an empty `unique_ptr<To>` is
returned; a match forwards to `cast<To>(std::move(pVal))`, which empties
the source. Returns (result, final state of the source handle). -/
def dynCastUnique (S : CastSys Ty K) (To Fr : Ty) (src : Option (Obj K)) :
    Except AssertViolation (Option (TObj Ty K) × Option (Obj K)) :=
  match src with
  | none => .ok (none, none)
  | some o =>
    match isaUnique S [To] Fr (some o) with
    | .error e => .error e
    | .ok b =>
      if b then
        (castUnique S To Fr (some o)).map (fun r => (some r.1, r.2))
      else
        .ok (none, some o)

/-- casting.hxx, `dyn_cast` on a `shared_ptr` (lines 370-376): identical
to casting.h. -/
def dynCastShared (S : CastSys Ty K) (To Fr : Ty) (src : Option (Obj K)) (count : Nat) :
    Except AssertViolation (Option (TObj Ty K) × Option (Obj K) × Nat) :=
  match src with
  | none => .ok (none, none, count)
  | some o =>
    match isaShared S [To] Fr (some o) with
    | .error e => .error e
    | .ok b =>
      if b then
        (castShared S To Fr (some o) count).map (fun r => (some r.1, r.2.1, r.2.2))
      else
        .ok (none, some o, count)

/-- casting.hxx, `dyn_cast` on an `optional` (lines 387-393): empty input
or mismatch yields `std::nullopt`; otherwise `return cast<To>(pVal);`
(the casting.hxx optional cast, already `std::optional<To>`-valued). -/
def dynCastOpt (S : CastSys Ty K) (To Fr : Ty) (src : Option (Obj K)) (newAddr : Nat) :
    Except AssertViolation (Option (TObj Ty K)) :=
  match src with
  | none => .ok none
  | some o =>
    match isaOpt S [To] Fr (some o) with
    | .error e => .error e
    | .ok b => if b then castOpt S To Fr (some o) newAddr else .ok none

/-- Declared return type of casting.hxx `cast` on an `optional`
(line 278): `std::optional<To>`. -/
def castOptRetTy (To : Ty) : CxxTy Ty :=
  .optionalOf To

/-- Declared return type of casting.hxx `cast` on a `unique_ptr`
(line 245): `std::unique_ptr<To>`. -/
def castUniqueRetTy (To : Ty) : CxxTy Ty :=
  .uniquePtr To

/-- Declared return type of casting.hxx `dyn_cast` on a `unique_ptr`
(line 354): `std::unique_ptr<To>`. -/
def dynCastUniqueRetTy (To : Ty) : CxxTy Ty :=
  .uniquePtr To

/-- Type of the expression returned by the success branch of casting.hxx
`dyn_cast` on a `unique_ptr` (line 358, `cast<To>(std::move(pVal))`). -/
def dynCastUniqueSuccessTy (To : Ty) : CxxTy Ty :=
  castUniqueRetTy To

end CastingHxx

/-- The Classification Protocol as worded in the specification
(section 4.1), for comparison with the source's `isa_impl`: structural
match (candidate is a declared structural base of the value's static
type) is unconditionally true; otherwise, an exposed classification
predicate decides; otherwise no match. -/
def specMatch {Ty K : Type} (S : CastSys Ty K) (To Fr : Ty) (o : Obj K) : Bool :=
  if S.baseOf To Fr then
    true
  else if S.classofCallable To Fr then
    S.classof To o.kind
  else
    false

/-
Concrete hierarchy from src/examples/casting_example.cxx, used as the
instantiation for witnesses: `Shape` with its `ShapeKind` discriminant,
and the nine participating classes with their declared derivations and
`classof` predicates.
-/

/-- `Shape::ShapeKind` (casting_example.cxx, lines 7-17), with the
enumerators' underlying values given by `toNat` below. -/
inductive ShapeKind : Type
  | SK_Parallelogram
  | SK_Rhombus
  | SK_Rectangle
  | SK_Square
  | SK_Ellipse
  | SK_Triangle
  | SK_EquilateralTriangle
  | SK_IsoscelesTriangle
  | SK_ScaleneTriangle
deriving DecidableEq

/-- Underlying enumerator values of `ShapeKind` (declaration order,
starting from 0), used by the range comparisons in the `classof`
predicates. -/
def ShapeKind.toNat : ShapeKind → Nat
  | .SK_Parallelogram => 0
  | .SK_Rhombus => 1
  | .SK_Rectangle => 2
  | .SK_Square => 3
  | .SK_Ellipse => 4
  | .SK_Triangle => 5
  | .SK_EquilateralTriangle => 6
  | .SK_IsoscelesTriangle => 7
  | .SK_ScaleneTriangle => 8

/-- The class names of the example hierarchy. -/
inductive ShapeTy : Type
  | Shape
  | Parallelogram
  | Rhombus
  | Rectangle
  | Square
  | Ellipse
  | Triangle
  | EquilateralTriangle
  | IsoscelesTriangle
  | ScaleneTriangle
deriving DecidableEq

/-- Each class together with its declared (transitive and reflexive)
bases, per the example's derivation chains: `Square : Rectangle :
Parallelogram : Shape`, `Rhombus : Parallelogram : Shape`,
`Ellipse : Shape`, and the three triangle classes deriving
`Triangle : Shape`. -/
def ShapeTy.ancestors : ShapeTy → List ShapeTy
  | .Shape => [.Shape]
  | .Parallelogram => [.Parallelogram, .Shape]
  | .Rhombus => [.Rhombus, .Parallelogram, .Shape]
  | .Rectangle => [.Rectangle, .Parallelogram, .Shape]
  | .Square => [.Square, .Rectangle, .Parallelogram, .Shape]
  | .Ellipse => [.Ellipse, .Shape]
  | .Triangle => [.Triangle, .Shape]
  | .EquilateralTriangle => [.EquilateralTriangle, .Triangle, .Shape]
  | .IsoscelesTriangle => [.IsoscelesTriangle, .Triangle, .Shape]
  | .ScaleneTriangle => [.ScaleneTriangle, .Triangle, .Shape]

/-- `std::is_base_of_v<To, Fr>` on the example hierarchy: `To` is `Fr`
itself or one of its declared bases. -/
def shapeBaseOf (To Fr : ShapeTy) : Bool :=
  Fr.ancestors.contains To

/-- Whether `To::classof(const Fr*)` is well-formed on the example
hierarchy: every class except `Shape` declares
`static auto classof(const Shape*) -> bool`, and any `Fr*` in the
hierarchy converts to `const Shape*`. -/
def shapeClassofCallable (To Fr : ShapeTy) : Bool :=
  To != ShapeTy.Shape && shapeBaseOf ShapeTy.Shape Fr

/-- The `classof` predicates of casting_example.cxx, each reading the
shape's `GetKind()` discriminant (`Shape` declares none; the entry is
unreachable because `shapeClassofCallable` is false there). -/
def shapeClassof : ShapeTy → ShapeKind → Bool
  | .Shape, _ => false
  | .Parallelogram, k =>
    ShapeKind.SK_Parallelogram.toNat ≤ k.toNat && k.toNat ≤ ShapeKind.SK_Square.toNat
  | .Rhombus, k => k == .SK_Rhombus
  | .Rectangle, k =>
    ShapeKind.SK_Rectangle.toNat ≤ k.toNat && k.toNat ≤ ShapeKind.SK_Square.toNat
  | .Square, k => k == .SK_Square
  | .Ellipse, k => k == .SK_Ellipse
  | .Triangle, k =>
    ShapeKind.SK_Triangle.toNat ≤ k.toNat && k.toNat ≤ ShapeKind.SK_ScaleneTriangle.toNat
  | .EquilateralTriangle, k => k == .SK_EquilateralTriangle
  | .IsoscelesTriangle, k => k == .SK_IsoscelesTriangle
  | .ScaleneTriangle, k => k == .SK_ScaleneTriangle

/-- The example hierarchy packaged for the casting embeddings. -/
def shapeSys : CastSys ShapeTy ShapeKind :=
  ⟨shapeBaseOf, shapeClassofCallable, shapeClassof⟩

/-- The two variants' `isa_impl` are the same function of the same
compile-time data (shared helper for the claim proofs). -/
theorem isa_impl_hxx_eq_h {Ty K : Type} (S : CastSys Ty K) (To Fr : Ty) (o : Obj K) :
    CastingHxx.isa_impl S To Fr o = CastingH.isa_impl S To Fr o :=
  rfl

/-- The two variants' variadic `isa` folds agree (shared helper). -/
theorem isaFold_hxx_eq_h {Ty K : Type} (S : CastSys Ty K) (Tos : List Ty) (Fr : Ty)
    (o : Obj K) :
    CastingHxx.isaFold S Tos Fr o = CastingH.isaFold S Tos Fr o :=
  rfl

/-- C1: for every ownership shape whose presence precondition holds,
`isa` returns true iff at least one candidate type matches per the
Classification Protocol (structural base unconditionally; otherwise the
exposed `classof` predicate; otherwise no match), and the result
obtained through the pointer, unique, shared and optional shapes equals
the result obtained on the pointed-to value itself. -/
theorem c1_isa_uniform_across_shapes {Ty K : Type} (S : CastSys Ty K) (Tos : List Ty)
    (Fr : Ty) (o : Obj K) :
    CastingH.isaPtr S Tos Fr (some o) = .ok (CastingH.isaRef S Tos Fr o)
    ∧ CastingH.isaUnique S Tos Fr (some o) = .ok (CastingH.isaRef S Tos Fr o)
    ∧ CastingH.isaShared S Tos Fr (some o) = .ok (CastingH.isaRef S Tos Fr o)
    ∧ CastingH.isaOpt S Tos Fr (some o) = .ok (CastingH.isaRef S Tos Fr o)
    ∧ CastingHxx.isaRef S Tos Fr o = CastingH.isaRef S Tos Fr o
    ∧ CastingHxx.isaPtr S Tos Fr (some o) = .ok (CastingH.isaRef S Tos Fr o)
    ∧ (CastingH.isaRef S Tos Fr o = true ↔ ∃ To ∈ Tos, specMatch S To Fr o = true) := by
  refine ⟨rfl, rfl, rfl, rfl, rfl, rfl, ?_⟩
  simp only [CastingH.isaRef, CastingH.isaFold, List.any_eq_true]
  exact Iff.rfl

/-- C4: `dyn_cast` on a null raw pointer or an empty optional returns
the absent result; the statement holds for every `CastSys` - in
particular for every classification predicate - so the predicate is
never consulted, and the result is `.ok`, so no assertion fires. -/
theorem c4_absent_input_propagates {Ty K : Type} (S : CastSys Ty K) (To Fr : Ty)
    (na : Nat) :
    CastingH.dynCastPtr S To Fr none = .ok none
    ∧ CastingHxx.dynCastPtr S To Fr none = .ok none
    ∧ CastingH.dynCastOpt S To Fr none na = .ok none
    ∧ CastingHxx.dynCastOpt S To Fr none na = .ok none :=
  ⟨rfl, rfl, rfl, rfl⟩

/-- C7: when the candidate type is a declared structural base of the
value's static type, membership is unconditionally true in both
variants, for every choice of classification predicate and of the
predicate-availability test - so no predicate is consulted. -/
theorem c7_structural_match_short_circuits {Ty K : Type} (S : CastSys Ty K)
    (To Fr : Ty) (o : Obj K) (h : S.baseOf To Fr = true) :
    CastingH.isa_impl S To Fr o = true
    ∧ CastingHxx.isa_impl S To Fr o = true
    ∧ ∀ (c : Ty → Ty → Bool) (p : Ty → K → Bool),
        CastingH.isa_impl ⟨S.baseOf, c, p⟩ To Fr o = true := by
  refine ⟨?_, ?_, ?_⟩
  · simp [CastingH.isa_impl, h]
  · simp [CastingHxx.isa_impl, h]
  · intro c p
    simp [CastingH.isa_impl, h]

/-- Instantiation of `c7_structural_match_short_circuits` on the example
hierarchy: `Parallelogram` is a declared base of `Square`, so a `Square`
is a `Parallelogram` unconditionally. -/
theorem c7_witness :
    shapeSys.baseOf ShapeTy.Parallelogram ShapeTy.Square = true
    ∧ CastingH.isa_impl shapeSys ShapeTy.Parallelogram ShapeTy.Square
        ⟨0, ShapeKind.SK_Square⟩ = true :=
  ⟨by decide,
    (c7_structural_match_short_circuits shapeSys ShapeTy.Parallelogram ShapeTy.Square
      ⟨0, ShapeKind.SK_Square⟩ (by decide)).1⟩

/-- C9: the pre-concepts `dyn_cast` for the `unique_ptr` shape declares
the return type `std::unique_ptr<To>*` while its success branch returns
a `std::unique_ptr<To>` value (the result of `cast`), which does not
match the declared type - so its failure result is a doubly-indirected
null and its success path is ill-formed; the concept-based variant
declares `std::unique_ptr<To>`, matching its success branch. -/
theorem c9_preconcepts_unique_dyncast_ill_formed {Ty : Type} (To : Ty) :
    CastingH.dynCastUniqueRetTy To = CxxTy.ptr (CxxTy.uniquePtr To)
    ∧ CastingH.dynCastUniqueSuccessTy To = CxxTy.uniquePtr To
    ∧ CastingH.dynCastUniqueRetTy To ≠ CastingH.dynCastUniqueSuccessTy To
    ∧ CastingHxx.dynCastUniqueRetTy To = CxxTy.uniquePtr To
    ∧ CastingHxx.dynCastUniqueRetTy To = CastingHxx.dynCastUniqueSuccessTy To := by
  refine ⟨rfl, rfl, ?_, rfl, rfl⟩
  intro hc
  exact CxxTy.noConfusion hc

/-- C2: on a matching value `o`, `dyn_cast` is present and its payload -
the same address for the reference and pointer shapes - is exactly what
`cast` produces; on a non-matching value `o'`, `dyn_cast` is absent.
Stated for all five shapes (the unique shape through the concept-based
variant, whose checked narrow is the well-formed one; see C9). -/
theorem c2_checked_unchecked_agreement {Ty K : Type} (S : CastSys Ty K) (To Fr : Ty)
    (o o' : Obj K) (count na : Nat)
    (h : CastingH.isaRef S [To] Fr o = true)
    (h' : CastingH.isaRef S [To] Fr o' = false) :
    (CastingH.dynCastRef S To Fr o = .ok (some ⟨To, o⟩)
      ∧ CastingH.castRef S To Fr o = .ok ⟨To, o⟩
      ∧ CastingH.dynCastRef S To Fr o' = .ok none)
    ∧ (CastingH.dynCastPtr S To Fr (some o) = .ok (some ⟨To, o⟩)
      ∧ CastingH.castPtr S To Fr (some o) = .ok ⟨To, o⟩
      ∧ CastingH.dynCastPtr S To Fr (some o') = .ok none)
    ∧ (CastingHxx.dynCastUnique S To Fr (some o) = .ok (some ⟨To, o⟩, none)
      ∧ CastingHxx.castUnique S To Fr (some o) = .ok (⟨To, o⟩, none)
      ∧ CastingHxx.dynCastUnique S To Fr (some o') = .ok (none, some o'))
    ∧ (CastingH.dynCastShared S To Fr (some o) count = .ok (some ⟨To, o⟩, some o, count + 1)
      ∧ CastingH.castShared S To Fr (some o) count = .ok (⟨To, o⟩, some o, count + 1)
      ∧ CastingH.dynCastShared S To Fr (some o') count = .ok (none, some o', count))
    ∧ (CastingH.dynCastOpt S To Fr (some o) na = .ok (some ⟨To, ⟨na, o.kind⟩⟩)
      ∧ CastingH.castOpt S To Fr (some o) na = .ok ⟨To, ⟨na, o.kind⟩⟩
      ∧ CastingH.dynCastOpt S To Fr (some o') na = .ok none) := by
  have hx : CastingHxx.isaFold S [To] Fr o = true := h
  have hx' : CastingHxx.isaFold S [To] Fr o' = false := h'
  have hh : CastingH.isaFold S [To] Fr o = true := h
  have hh' : CastingH.isaFold S [To] Fr o' = false := h'
  refine ⟨⟨?_, ?_, ?_⟩, ⟨?_, ?_, ?_⟩, ⟨?_, ?_, ?_⟩, ⟨?_, ?_, ?_⟩, ⟨?_, ?_, ?_⟩⟩ <;>
    simp [CastingH.dynCastRef, CastingH.castRef, CastingH.isaRef,
      CastingH.dynCastPtr, CastingH.castPtr, CastingH.isaPtr,
      CastingHxx.dynCastUnique, CastingHxx.castUnique, CastingHxx.isaUnique,
      CastingH.dynCastShared, CastingH.castShared, CastingH.isaShared,
      CastingH.dynCastOpt, CastingH.castOpt, CastingH.isaOpt,
      hh, hh', hx, hx', Except.map]

/-- Instantiation of `c2_checked_unchecked_agreement` on the example
hierarchy: a `Square`-tagged `Shape` matches `Rectangle`, an
`Ellipse`-tagged one does not. -/
theorem c2_witness :
    CastingH.isaRef shapeSys [ShapeTy.Rectangle] ShapeTy.Shape
      ⟨0, ShapeKind.SK_Square⟩ = true
    ∧ CastingH.isaRef shapeSys [ShapeTy.Rectangle] ShapeTy.Shape
      ⟨1, ShapeKind.SK_Ellipse⟩ = false
    ∧ CastingH.dynCastRef shapeSys ShapeTy.Rectangle ShapeTy.Shape
      ⟨0, ShapeKind.SK_Square⟩
      = .ok (some ⟨ShapeTy.Rectangle, ⟨0, ShapeKind.SK_Square⟩⟩) :=
  ⟨by decide, by decide,
    (c2_checked_unchecked_agreement shapeSys ShapeTy.Rectangle ShapeTy.Shape
      ⟨0, ShapeKind.SK_Square⟩ ⟨1, ShapeKind.SK_Ellipse⟩ 2 9
      (by decide) (by decide)).1.1⟩

/-- C3: on the exclusively-owned shape, a successful `cast` or
`dyn_cast` leaves the source handle empty and the returned handle owns
the same object; a failed `dyn_cast` is absent and leaves the source
handle fully intact. -/
theorem c3_exclusive_ownership_transfer {Ty K : Type} (S : CastSys Ty K) (To Fr : Ty)
    (o o' : Obj K)
    (h : CastingH.isaRef S [To] Fr o = true)
    (h' : CastingH.isaRef S [To] Fr o' = false) :
    CastingH.castUnique S To Fr (some o) = .ok (⟨To, o⟩, none)
    ∧ CastingHxx.castUnique S To Fr (some o) = .ok (⟨To, o⟩, none)
    ∧ CastingHxx.dynCastUnique S To Fr (some o) = .ok (some ⟨To, o⟩, none)
    ∧ CastingHxx.dynCastUnique S To Fr (some o') = .ok (none, some o') := by
  have hx : CastingHxx.isaFold S [To] Fr o = true := h
  have hx' : CastingHxx.isaFold S [To] Fr o' = false := h'
  have hh : CastingH.isaFold S [To] Fr o = true := h
  refine ⟨?_, ?_, ?_, ?_⟩ <;>
    simp [CastingH.castUnique, CastingHxx.castUnique, CastingHxx.dynCastUnique,
      CastingHxx.isaUnique, hh, hx, hx', Except.map]

/-- Instantiation of `c3_exclusive_ownership_transfer` on the example
hierarchy: moving a `Square`-tagged unique handle through a `Rectangle`
narrow succeeds and empties the source; an `Ellipse`-tagged one fails
and is left intact. -/
theorem c3_witness :
    CastingH.isaRef shapeSys [ShapeTy.Rectangle] ShapeTy.Shape
      ⟨0, ShapeKind.SK_Square⟩ = true
    ∧ CastingH.isaRef shapeSys [ShapeTy.Rectangle] ShapeTy.Shape
      ⟨1, ShapeKind.SK_Ellipse⟩ = false
    ∧ CastingH.castUnique shapeSys ShapeTy.Rectangle ShapeTy.Shape
      (some ⟨0, ShapeKind.SK_Square⟩)
      = .ok (⟨ShapeTy.Rectangle, ⟨0, ShapeKind.SK_Square⟩⟩, none) :=
  ⟨by decide, by decide,
    (c3_exclusive_ownership_transfer shapeSys ShapeTy.Rectangle ShapeTy.Shape
      ⟨0, ShapeKind.SK_Square⟩ ⟨1, ShapeKind.SK_Ellipse⟩
      (by decide) (by decide)).1⟩

/-- C8: a successful `cast`/`dyn_cast` on a shared handle returns a new
handle designating the same address (so a write through the new
handle's address is read back through the source's address), adds
exactly one live owner, and leaves the source handle present and
unchanged. -/
theorem c8_shared_aliasing {Ty K : Type} (S : CastSys Ty K) (To Fr : Ty) (o : Obj K)
    (count : Nat) (heap : Nat → K) (k : K)
    (h : CastingH.isaRef S [To] Fr o = true) :
    CastingH.castShared S To Fr (some o) count = .ok (⟨To, o⟩, some o, count + 1)
    ∧ CastingHxx.castShared S To Fr (some o) count = .ok (⟨To, o⟩, some o, count + 1)
    ∧ CastingH.dynCastShared S To Fr (some o) count
      = .ok (some ⟨To, o⟩, some o, count + 1)
    ∧ CastingHxx.dynCastShared S To Fr (some o) count
      = .ok (some ⟨To, o⟩, some o, count + 1)
    ∧ readKind (writeKind heap (TObj.mk To o).obj.addr k) o.addr = k := by
  have hx : CastingHxx.isaFold S [To] Fr o = true := h
  have hh : CastingH.isaFold S [To] Fr o = true := h
  refine ⟨?_, ?_, ?_, ?_, ?_⟩ <;>
    simp [CastingH.castShared, CastingHxx.castShared, CastingH.dynCastShared,
      CastingHxx.dynCastShared, CastingH.isaShared, CastingHxx.isaShared,
      readKind, writeKind, hh, hx, Except.map]

/-- Instantiation of `c8_shared_aliasing` on the example hierarchy. -/
theorem c8_witness :
    CastingH.isaRef shapeSys [ShapeTy.Rectangle] ShapeTy.Shape
      ⟨0, ShapeKind.SK_Square⟩ = true
    ∧ CastingH.castShared shapeSys ShapeTy.Rectangle ShapeTy.Shape
      (some ⟨0, ShapeKind.SK_Square⟩) 1
      = .ok (⟨ShapeTy.Rectangle, ⟨0, ShapeKind.SK_Square⟩⟩,
          some ⟨0, ShapeKind.SK_Square⟩, 2) :=
  ⟨by decide,
    (c8_shared_aliasing shapeSys ShapeTy.Rectangle ShapeTy.Shape
      ⟨0, ShapeKind.SK_Square⟩ 1 (fun _ => ShapeKind.SK_Square) ShapeKind.SK_Rhombus
      (by decide)).1⟩

/-- C10: the optional-shape `cast` and `dyn_cast` build their result by
copy construction at a fresh address: the payload's discriminant is
copied but its identity is not (the result's address is the fresh one,
unlike the reference shape, whose result keeps the original storage),
and the result's static type is the target type even when the payload's
dynamic discriminant is more derived. -/
theorem c10_optional_copies_and_slices {Ty K : Type} (S : CastSys Ty K) (To Fr : Ty)
    (o : Obj K) (na : Nat) (hna : na ≠ o.addr)
    (h : CastingH.isaRef S [To] Fr o = true) :
    CastingH.castOpt S To Fr (some o) na = .ok ⟨To, ⟨na, o.kind⟩⟩
    ∧ CastingHxx.castOpt S To Fr (some o) na = .ok (some ⟨To, ⟨na, o.kind⟩⟩)
    ∧ CastingH.dynCastOpt S To Fr (some o) na = .ok (some ⟨To, ⟨na, o.kind⟩⟩)
    ∧ CastingHxx.dynCastOpt S To Fr (some o) na = .ok (some ⟨To, ⟨na, o.kind⟩⟩)
    ∧ (CastingH.castOpt S To Fr (some o) na).toOption.all
        (fun r => r.obj.addr != o.addr) = true
    ∧ CastingH.castRef S To Fr o = .ok ⟨To, o⟩ := by
  have hx : CastingHxx.isaFold S [To] Fr o = true := h
  have hh : CastingH.isaFold S [To] Fr o = true := h
  refine ⟨?_, ?_, ?_, ?_, ?_, ?_⟩ <;>
    simp [CastingH.castOpt, CastingHxx.castOpt, CastingH.dynCastOpt,
      CastingHxx.dynCastOpt, CastingH.isaOpt, CastingHxx.isaOpt,
      CastingH.castRef, CastingH.isaRef, Except.toOption, Option.all,
      hh, hx, hna, Except.map]

/-- Instantiation of `c10_optional_copies_and_slices` on the example
hierarchy: an `optional<Rectangle>` holding a `Square`-tagged payload at
address 5, cast to `Rectangle`, yields a fresh `Rectangle`-typed copy at
address 9 that keeps the `SK_Square` discriminant. -/
theorem c10_witness :
    (9 : Nat) ≠ (5 : Nat)
    ∧ CastingH.isaRef shapeSys [ShapeTy.Rectangle] ShapeTy.Rectangle
      ⟨5, ShapeKind.SK_Square⟩ = true
    ∧ CastingH.castOpt shapeSys ShapeTy.Rectangle ShapeTy.Rectangle
      (some ⟨5, ShapeKind.SK_Square⟩) 9
      = .ok ⟨ShapeTy.Rectangle, ⟨9, ShapeKind.SK_Square⟩⟩ :=
  ⟨by decide, by decide,
    (c10_optional_copies_and_slices shapeSys ShapeTy.Rectangle ShapeTy.Rectangle
      ⟨5, ShapeKind.SK_Square⟩ 9 (by decide) (by decide)).1⟩

/-- C5 counterexample: the two variants are not observably equivalent.
The optional-shape `cast` differs in declared result representation
(`To` by value vs `std::optional<To>`) and in behaviour on an empty
input (assertion vs silent empty result), and the unique-shape
`dyn_cast` differs in declared result representation
(`std::unique_ptr<To>*` vs `std::unique_ptr<To>`). -/
theorem c5_counterexample :
    CastingH.castOptRetTy ShapeTy.Rectangle ≠ CastingHxx.castOptRetTy ShapeTy.Rectangle
    ∧ CastingH.castOpt shapeSys ShapeTy.Rectangle ShapeTy.Rectangle none 0
      = .error .emptyOptional
    ∧ CastingHxx.castOpt shapeSys ShapeTy.Rectangle ShapeTy.Rectangle none 0 = .ok none
    ∧ CastingH.dynCastUniqueRetTy ShapeTy.Rectangle
      ≠ CastingHxx.dynCastUniqueRetTy ShapeTy.Rectangle := by
  refine ⟨by decide, rfl, rfl, by decide⟩

/-- C5 amended: the two variants agree on `isa` for all five shapes, on
`cast` for the reference, pointer, unique and shared shapes, and on
`dyn_cast` for the reference, pointer, shared and optional shapes; they
also agree on the optional `cast` for present inputs up to the result
wrapper. They differ on the optional `cast` with an empty input and on
the unique-shape `dyn_cast` (see the counterexample and C9). -/
theorem c5_variants_agree_where_stated {Ty K : Type} (S : CastSys Ty K)
    (Tos : List Ty) (To Fr : Ty) (o : Obj K) (p : Option (Obj K)) (count na : Nat) :
    CastingH.isaRef S Tos Fr o = CastingHxx.isaRef S Tos Fr o
    ∧ CastingH.isaPtr S Tos Fr p = CastingHxx.isaPtr S Tos Fr p
    ∧ CastingH.isaUnique S Tos Fr p = CastingHxx.isaUnique S Tos Fr p
    ∧ CastingH.isaShared S Tos Fr p = CastingHxx.isaShared S Tos Fr p
    ∧ CastingH.isaOpt S Tos Fr p = CastingHxx.isaOpt S Tos Fr p
    ∧ CastingH.castRef S To Fr o = CastingHxx.castRef S To Fr o
    ∧ CastingH.castPtr S To Fr p = CastingHxx.castPtr S To Fr p
    ∧ CastingH.castUnique S To Fr p = CastingHxx.castUnique S To Fr p
    ∧ CastingH.castShared S To Fr p count = CastingHxx.castShared S To Fr p count
    ∧ (CastingH.castOpt S To Fr (some o) na).map some
      = CastingHxx.castOpt S To Fr (some o) na
    ∧ CastingH.dynCastRef S To Fr o = CastingHxx.dynCastRef S To Fr o
    ∧ CastingH.dynCastPtr S To Fr p = CastingHxx.dynCastPtr S To Fr p
    ∧ CastingH.dynCastShared S To Fr p count = CastingHxx.dynCastShared S To Fr p count
    ∧ CastingH.dynCastOpt S To Fr p na = CastingHxx.dynCastOpt S To Fr p na := by
  refine ⟨rfl, rfl, rfl, rfl, rfl, rfl, rfl, rfl, rfl, ?_, ?_, ?_, ?_, ?_⟩
  · by_cases hb : CastingH.isaFold S [To] Fr o = true
    · have hx : CastingHxx.isaFold S [To] Fr o = true := hb
      simp [CastingH.castOpt, CastingHxx.castOpt, hb, hx, Except.map]
    · have hb' : CastingH.isaFold S [To] Fr o = false := by
        simpa using hb
      have hx' : CastingHxx.isaFold S [To] Fr o = false := hb'
      simp [CastingH.castOpt, CastingHxx.castOpt, hb', hx', Except.map]
  · by_cases hb : CastingH.isaFold S [To] Fr o = true
    · have hx : CastingHxx.isaFold S [To] Fr o = true := hb
      simp [CastingH.dynCastRef, CastingHxx.dynCastRef, CastingH.isaRef,
        CastingHxx.isaRef, CastingH.castRef, CastingHxx.castPtr, hb, hx, Except.map]
    · have hb' : CastingH.isaFold S [To] Fr o = false := by
        simpa using hb
      have hx' : CastingHxx.isaFold S [To] Fr o = false := hb'
      simp [CastingH.dynCastRef, CastingHxx.dynCastRef, CastingH.isaRef,
        CastingHxx.isaRef, hb', hx']
  · rfl
  · rfl
  · cases p with
    | none => rfl
    | some q =>
      by_cases hb : CastingH.isaFold S [To] Fr q = true
      · have hx : CastingHxx.isaFold S [To] Fr q = true := hb
        simp [CastingH.dynCastOpt, CastingHxx.dynCastOpt, CastingH.isaOpt,
          CastingHxx.isaOpt, CastingH.castOpt, CastingHxx.castOpt, hb, hx, Except.map]
      · have hb' : CastingH.isaFold S [To] Fr q = false := by
          simpa using hb
        have hx' : CastingHxx.isaFold S [To] Fr q = false := hb'
        simp [CastingH.dynCastOpt, CastingHxx.dynCastOpt, CastingH.isaOpt,
          CastingHxx.isaOpt, hb', hx']

/-- C6 counterexample: the concept-based variant's `cast` on an empty
optional does not assert - it converts the absent input into a normal
return value (an empty optional), contradicting the claim that an
absent input to `cast` is always a detected precondition failure. -/
theorem c6_counterexample :
    CastingHxx.castOpt shapeSys ShapeTy.Rectangle ShapeTy.Rectangle none 7
      = .ok none :=
  rfl

/-- C6 amended: `isa` with an absent input asserts in both variants for
every shape that can be absent; `cast` with an absent input asserts in
both variants for the pointer, unique and shared shapes and in the
pre-concepts variant for the optional shape, while the concept-based
optional `cast` instead returns an empty optional without asserting;
`cast` on a present non-matching value asserts in both variants; and
under the precondition (present input, membership holds) no assertion
fires. -/
theorem c6_assertion_discipline {Ty K : Type} (S : CastSys Ty K) (Tos : List Ty)
    (To Fr : Ty) (o o' : Obj K) (count na : Nat)
    (h : CastingH.isaRef S [To] Fr o = true)
    (h' : CastingH.isaRef S [To] Fr o' = false) :
    (CastingH.isaPtr S Tos Fr none = .error .nullPointer
      ∧ CastingH.isaUnique S Tos Fr none = .error .nullPointer
      ∧ CastingH.isaShared S Tos Fr none = .error .nullPointer
      ∧ CastingH.isaOpt S Tos Fr none = .error .emptyOptional
      ∧ CastingHxx.isaPtr S Tos Fr none = .error .nullPointer
      ∧ CastingHxx.isaUnique S Tos Fr none = .error .nullPointer
      ∧ CastingHxx.isaShared S Tos Fr none = .error .nullPointer
      ∧ CastingHxx.isaOpt S Tos Fr none = .error .emptyOptional)
    ∧ (CastingH.castPtr S To Fr none = .error .nullPointer
      ∧ CastingH.castUnique S To Fr none = .error .nullPointer
      ∧ CastingH.castShared S To Fr none count = .error .nullPointer
      ∧ CastingH.castOpt S To Fr none na = .error .emptyOptional
      ∧ CastingHxx.castOpt S To Fr none na = .ok none)
    ∧ (CastingH.castRef S To Fr o' = .error .incompatibleType
      ∧ CastingH.castPtr S To Fr (some o') = .error .incompatibleType
      ∧ CastingH.castUnique S To Fr (some o') = .error .incompatibleType
      ∧ CastingH.castShared S To Fr (some o') count = .error .incompatibleType
      ∧ CastingH.castOpt S To Fr (some o') na = .error .incompatibleType
      ∧ CastingHxx.castOpt S To Fr (some o') na = .error .incompatibleType)
    ∧ (CastingH.isaPtr S Tos Fr (some o) = .ok (CastingH.isaRef S Tos Fr o)
      ∧ CastingH.castRef S To Fr o = .ok ⟨To, o⟩
      ∧ CastingH.castPtr S To Fr (some o) = .ok ⟨To, o⟩
      ∧ CastingH.castUnique S To Fr (some o) = .ok (⟨To, o⟩, none)
      ∧ CastingH.castShared S To Fr (some o) count = .ok (⟨To, o⟩, some o, count + 1)
      ∧ CastingH.castOpt S To Fr (some o) na = .ok ⟨To, ⟨na, o.kind⟩⟩) := by
  have hx' : CastingHxx.isaFold S [To] Fr o' = false := h'
  have hh : CastingH.isaFold S [To] Fr o = true := h
  have hh' : CastingH.isaFold S [To] Fr o' = false := h'
  refine ⟨⟨rfl, rfl, rfl, rfl, rfl, rfl, rfl, rfl⟩,
    ⟨rfl, rfl, rfl, rfl, rfl⟩, ⟨?_, ?_, ?_, ?_, ?_, ?_⟩, ⟨rfl, ?_, ?_, ?_, ?_, ?_⟩⟩ <;>
    simp [CastingH.castRef, CastingH.castPtr, CastingH.castUnique,
      CastingH.castShared, CastingH.castOpt, CastingHxx.castOpt,
      CastingH.isaRef, hh, hh', hx']

/-- Instantiation of `c6_assertion_discipline` on the example
hierarchy. -/
theorem c6_witness :
    CastingH.isaRef shapeSys [ShapeTy.Rectangle] ShapeTy.Shape
      ⟨0, ShapeKind.SK_Square⟩ = true
    ∧ CastingH.isaRef shapeSys [ShapeTy.Rectangle] ShapeTy.Shape
      ⟨1, ShapeKind.SK_Ellipse⟩ = false
    ∧ CastingH.castRef shapeSys ShapeTy.Rectangle ShapeTy.Shape
      ⟨1, ShapeKind.SK_Ellipse⟩ = .error .incompatibleType :=
  ⟨by decide, by decide,
    (c6_assertion_discipline shapeSys [ShapeTy.Rectangle] ShapeTy.Rectangle
      ShapeTy.Shape ⟨0, ShapeKind.SK_Square⟩ ⟨1, ShapeKind.SK_Ellipse⟩ 3 4
      (by decide) (by decide)).2.2.1.1⟩
